import Mathlib

/-!
Shallow embedding of the QXW protocol engine of the fairbuds web client
(src/web/fairbuds.js).  Byte sequences are lists of naturals; every store
into a Uint8Array is modelled with an explicit `% 256`; JS numbers that
stay on exact decimal values are modelled as rationals; Math.round is
floor (x + 1/2), JS round-half-toward-positive-infinity.
-/

namespace Fairbuds

def CMD_SELECT_EQ : Nat := 0x10

def CMD_CUSTOM_EQ : Nat := 0x20

def CMD_DEVICE_INFO : Nat := 0x27

def TYPE_REQUEST : Nat := 0x01

def TYPE_NOTIFY : Nat := 0x03

def NUM_BANDS : Nat := 8

def GAIN_OFFSET : Nat := 120

def DEFAULT_Q : Nat := 7

def GAIN_MIN_DB : ℚ := -12

def GAIN_MAX_DB : ℚ := 27 / 2

/-- JS Math.round on exact rational inputs: floor (x + 1/2). -/
def jsRound (x : ℚ) : ℤ := ⌊x + 1/2⌋

/-- encodeGain from fairbuds.js: Math.round(db * 10) + 120, clamped to [0, 255]. -/
def encodeGain (db : ℚ) : ℤ := max 0 (min 255 (jsRound (db * 10) + 120))

/-- decodeGain from fairbuds.js: (byteVal - 120) / 10. -/
def decodeGain (byteVal : ℤ) : ℚ := ((byteVal : ℚ) - 120) / 10

/-- Q-factor encoding as done in applyCustomPreset:
Math.round(q * 10) clamped to [0, 255]. -/
def encodeQ (q : ℚ) : ℤ := max 0 (min 255 (jsRound (q * 10)))

/-- buildPacket from fairbuds.js.  The Uint8Array stores cmd, ty, the payload
length and the payload bytes modulo 256; no length validation is performed. -/
def buildPacket (cmd ty : Nat) (payload : List Nat) : List Nat :=
  [0x51, 0x58, 0x57, cmd % 256, ty % 256, payload.length % 256] ++ payload.map (· % 256)

/-- Result of parseDeviceInfo: battery percentages and the extracted
device name (kept as its byte sequence). -/
structure DeviceInfo where
  batteryLeft : Nat
  batteryRight : Nat
  name : List Nat
  deriving Repr, DecidableEq

/-- Printable-ASCII test used by the name scan in parseDeviceInfo. -/
def isPrintable (b : Nat) : Bool := decide (0x20 ≤ b) && decide (b ≤ 0x7e)

/-- The candidate name at index i: payload[i] is the length byte, the
name is the following payload[i] bytes (payload.slice(i+1, i+1+nameLen)). -/
def nameAt (p : List Nat) (i : Nat) : List Nat := (p.drop (i + 1)).take (p.getD i 0)

/-- The acceptance test of one loop iteration in parseDeviceInfo:
0 < nameLen < 32, the name fits in the payload, and all its bytes are
printable ASCII (the JS byte-wise loop plus the name.length check). -/
def validNameAt (p : List Nat) (i : Nat) : Bool :=
  decide (0 < p.getD i 0) && decide (p.getD i 0 < 32) &&
    decide (i + 1 + p.getD i 0 ≤ p.length) && (nameAt p i).all isPrintable

/-- The backwards scan of parseDeviceInfo, from index i down to 5:
return the first accepted candidate, or [] if none is accepted. -/
def scanNameFrom (p : List Nat) : Nat → List Nat
  | 0 => []
  | i + 1 =>
    if i + 1 < 5 then []
    else if validNameAt p (i + 1) then nameAt p (i + 1)
    else scanNameFrom p i

/-- The name-extraction loop of parseDeviceInfo starts at payload.length - 1. -/
def extractName (p : List Nat) : List Nat := scanNameFrom p (p.length - 1)

/-- parseDeviceInfo from fairbuds.js: none models the early return
("Device info payload too short", the FormatError) when fewer than
5 bytes; otherwise batteries are payload[2] and payload[3] and the name
comes from the backwards scan. -/
def parseDeviceInfo (p : List Nat) : Option DeviceInfo :=
  if p.length < 5 then none
  else some { batteryLeft := p.getD 2 0, batteryRight := p.getD 3 0, name := extractName p }

/-- The typed outcome of onNotification's dispatch.  unknownPacket models
the "Unknown packet (no QXW prefix)" branch; unrecognized carries the
command code of the "Unknown command" branch; deviceInfoTooShort models
parseDeviceInfo dropping a short payload. -/
inductive Event where
  | unknownPacket : Event
  | presetConfirmed : Event
  | customEqConfirmed : Event
  | deviceInfo : DeviceInfo → Event
  | deviceInfoTooShort : Event
  | unrecognized : Nat → Event
  deriving Repr, DecidableEq

/-- Both malformed-input outcomes (bad header, unknown command) are
"Unrecognized" in the spec's vocabulary. -/
def Event.isUnrecognized : Event → Bool
  | .unknownPacket => true
  | .unrecognized _ => true
  | _ => false

/-- The command byte an event allows to reconstruct. -/
def eventCmd : Event → Option Nat
  | .unknownPacket => none
  | .presetConfirmed => some CMD_SELECT_EQ
  | .customEqConfirmed => some CMD_CUSTOM_EQ
  | .deviceInfo _ => some CMD_DEVICE_INFO
  | .deviceInfoTooShort => some CMD_DEVICE_INFO
  | .unrecognized c => some c

/-- onNotification's dispatch from fairbuds.js, as a total function from
the received bytes to a typed event.  Mirrors the JS checks: length < 5 or
header not QXW; then cmd = value[3]; DeviceInfo requires value[4] = 0x02
and parses value.slice(5). -/
def decode (v : List Nat) : Event :=
  if v.length < 5 ∨ v.getD 0 0 ≠ 0x51 ∨ v.getD 1 0 ≠ 0x58 ∨ v.getD 2 0 ≠ 0x57 then
    .unknownPacket
  else if v.getD 3 0 = CMD_DEVICE_INFO ∧ v.getD 4 0 = 0x02 then
    match parseDeviceInfo (v.drop 5) with
    | some di => .deviceInfo di
    | none => .deviceInfoTooShort
  else if v.getD 3 0 = CMD_SELECT_EQ then .presetConfirmed
  else if v.getD 3 0 = CMD_CUSTOM_EQ then .customEqConfirmed
  else .unrecognized (v.getD 3 0)

/-- The 8-band EQ state of fairbuds.js: bandGains and bandQs hold the
already-encoded byte values. -/
structure EqState where
  bandGains : List Nat
  bandQs : List Nat
  deriving Repr, DecidableEq

/-- Initial state: all gains 120 (0 dB), all Qs 7 (Q = 0.7). -/
def initEqState : EqState :=
  { bandGains := List.replicate NUM_BANDS GAIN_OFFSET
    bandQs := List.replicate NUM_BANDS DEFAULT_Q }

/-- Per-band update as done in applyCustomPreset (and the spec's setBand):
clamp the gain to [-12, 13.5] dB, store encodeGain of it, and store the
clamped rounded Q byte. -/
def setBand (s : EqState) (i : Nat) (gainDb qReal : ℚ) : EqState :=
  { bandGains := s.bandGains.set i (encodeGain (max GAIN_MIN_DB (min GAIN_MAX_DB gainDb))).toNat
    bandQs := s.bandQs.set i (encodeQ qReal).toNat }

/-- The custom-EQ payload built by sendCustomEQ: for i in 0..7 the bytes
at offsets i*3, i*3+1, i*3+2 are the band index, its gain byte and its
Q byte. -/
def toCustomEqPayload (s : EqState) : List Nat :=
  (List.range NUM_BANDS).flatMap fun i => [i, s.bandGains.getD i 0, s.bandQs.getD i 0]

/-- Claim C1: for every command byte, type byte and payload of at most 255
bytes, buildPacket returns exactly the header 0x51 0x58 0x57 followed by
command, type, the payload length and the payload, so the frame has
length 6 + len(payload) and its byte 5 is len(payload). -/
theorem buildPacket_frame_layout (cmd ty : Nat) (payload : List Nat)
    (hc : cmd < 256) (ht : ty < 256) (hlen : payload.length ≤ 255)
    (hbytes : ∀ b ∈ payload, b < 256) :
    buildPacket cmd ty payload
        = [0x51, 0x58, 0x57, cmd, ty, payload.length] ++ payload ∧
      (buildPacket cmd ty payload).length = 6 + payload.length ∧
      (buildPacket cmd ty payload).getD 5 0 = payload.length := by
  have hmap : payload.map (fun b => b % 256) = payload := by
    conv_rhs => rw [← List.map_id payload]
    exact List.map_congr_left fun b hb => Nat.mod_eq_of_lt (hbytes b hb)
  have hfull : buildPacket cmd ty payload
      = [0x51, 0x58, 0x57, cmd, ty, payload.length] ++ payload := by
    unfold buildPacket
    rw [hmap, Nat.mod_eq_of_lt hc, Nat.mod_eq_of_lt ht,
      Nat.mod_eq_of_lt (Nat.lt_of_le_of_lt hlen (by norm_num))]
  refine ⟨hfull, ?_, ?_⟩
  · rw [hfull]
    simp
    omega
  · rw [hfull]
    simp

/-- Witness for C1 at a concrete frame (the device-info request). -/
theorem buildPacket_frame_layout_witness :
    buildPacket 0x27 0x01 [] = [0x51, 0x58, 0x57, 0x27, 0x01, 0x00] ++ [] ∧
      (buildPacket 0x27 0x01 []).length = 6 + 0 ∧
      (buildPacket 0x27 0x01 []).getD 5 0 = 0 :=
  buildPacket_frame_layout 0x27 0x01 [] (by decide) (by decide) (by decide)
    (by intro b hb; cases hb)

/-- Claim C2: decode is a total function (it never throws by
construction); inputs shorter than 5 bytes or without the QXW header
yield the Unrecognized outcome, any command byte outside
{0x10, 0x20, 0x27} yields Unrecognized carrying that command code, and
decode [0x51,0x58,0x57,0x99,0x01,0x00] = Unrecognized 0x99. -/
theorem decode_malformed_spec :
    (∀ v : List Nat,
      (v.length < 5 ∨ v.getD 0 0 ≠ 0x51 ∨ v.getD 1 0 ≠ 0x58 ∨ v.getD 2 0 ≠ 0x57) →
        decode v = .unknownPacket ∧ (decode v).isUnrecognized = true) ∧
    (∀ v : List Nat,
      ¬(v.length < 5 ∨ v.getD 0 0 ≠ 0x51 ∨ v.getD 1 0 ≠ 0x58 ∨ v.getD 2 0 ≠ 0x57) →
      v.getD 3 0 ≠ CMD_SELECT_EQ → v.getD 3 0 ≠ CMD_CUSTOM_EQ → v.getD 3 0 ≠ CMD_DEVICE_INFO →
        decode v = .unrecognized (v.getD 3 0) ∧ (decode v).isUnrecognized = true) ∧
    decode [0x51, 0x58, 0x57, 0x99, 0x01, 0x00] = .unrecognized 0x99 := by
  refine ⟨fun v h => ?_, fun v h hsel hcust hinfo => ?_, by decide⟩
  · rw [decode, if_pos h]
    exact ⟨rfl, rfl⟩
  · rw [decode, if_neg h, if_neg (fun hh => hinfo hh.1), if_neg hsel, if_neg hcust]
    exact ⟨rfl, rfl⟩

/-- Witness for C2: a short packet and an unknown-command packet. -/
theorem decode_malformed_spec_witness :
    (decode [0x51, 0x58] = .unknownPacket ∧ (decode [0x51, 0x58]).isUnrecognized = true) ∧
      (decode [0x51, 0x58, 0x57, 0x42, 0x01, 0x00] = .unrecognized 0x42 ∧
        (decode [0x51, 0x58, 0x57, 0x42, 0x01, 0x00]).isUnrecognized = true) :=
  ⟨decode_malformed_spec.1 [0x51, 0x58] (by decide),
    decode_malformed_spec.2.1 [0x51, 0x58, 0x57, 0x42, 0x01, 0x00]
      (by decide) (by decide) (by decide) (by decide)⟩

/-- Counterexample to claim C7: buildPacket does not fail on a payload of
256 bytes; it returns a 262-byte frame whose length byte has wrapped to
0 (Uint8Array stores pLen modulo 256), so a frame is produced. -/
theorem buildPacket_overflow_counterexample :
    (buildPacket 0x20 0x03 (List.replicate 256 0)).length = 262 ∧
      (buildPacket 0x20 0x03 (List.replicate 256 0)).getD 5 0 = 0 := by
  constructor
  · unfold buildPacket
    rw [List.length_append, List.length_map, List.length_replicate]
    rfl
  · unfold buildPacket
    rw [List.length_replicate]
    rfl

/-- Claim C7, amended: the frame encoder performs no length validation;
for a payload longer than 255 bytes it still returns a frame of length
6 + len(payload) whose length byte (offset 5) is len(payload) mod 256. -/
theorem buildPacket_overflow_behavior (cmd ty : Nat) (payload : List Nat)
    (hlen : 255 < payload.length) :
    (buildPacket cmd ty payload).length = 6 + payload.length ∧
      (buildPacket cmd ty payload).getD 5 0 = payload.length % 256 := by
  constructor
  · unfold buildPacket
    simp
    omega
  · unfold buildPacket
    rfl

/-- Witness for the amended C7 at a 300-byte payload: 300 mod 256 = 44. -/
theorem buildPacket_overflow_behavior_witness :
    (buildPacket 0x10 0x01 (List.replicate 300 7)).length = 6 + 300 ∧
      (buildPacket 0x10 0x01 (List.replicate 300 7)).getD 5 0 = 300 % 256 := by
  have h := buildPacket_overflow_behavior 0x10 0x01 (List.replicate 300 7)
    (by rw [List.length_replicate]; norm_num)
  rw [List.length_replicate] at h
  exact h

/-- Claim C8: parseDeviceInfo fails (returns none, dropping the event)
exactly when the payload has fewer than 5 bytes; otherwise it returns
batteryLeft = payload[2] and batteryRight = payload[3]. -/
theorem parseDeviceInfo_spec :
    (∀ p : List Nat, parseDeviceInfo p = none ↔ p.length < 5) ∧
    (∀ p : List Nat, 5 ≤ p.length →
      parseDeviceInfo p = some ⟨p.getD 2 0, p.getD 3 0, extractName p⟩) := by
  constructor
  · intro p
    unfold parseDeviceInfo
    split
    · simp [*]
    · simp
      omega
  · intro p hp
    unfold parseDeviceInfo
    rw [if_neg (by omega)]

/-- Witness for C8: a 5-byte payload parses, a 4-byte one is rejected. -/
theorem parseDeviceInfo_spec_witness :
    (parseDeviceInfo [9, 9, 80, 75, 0] = none ↔ ([9, 9, 80, 75, 0] : List Nat).length < 5) ∧
      parseDeviceInfo [9, 9, 80, 75, 0] = some ⟨80, 75, extractName [9, 9, 80, 75, 0]⟩ :=
  ⟨parseDeviceInfo_spec.1 [9, 9, 80, 75, 0],
    parseDeviceInfo_spec.2 [9, 9, 80, 75, 0] (by decide)⟩

/-- Claim C10: a well-formed QXW frame whose command byte is 0x27 but
whose byte 4 is not the 0x02 sub-code falls through to the unknown-command
branch: decode yields Unrecognized 0x27 and never a DeviceInfo event. -/
theorem decode_deviceInfo_wrong_subcode (v : List Nat)
    (h5 : 5 ≤ v.length) (h0 : v.getD 0 0 = 0x51) (h1 : v.getD 1 0 = 0x58)
    (h2 : v.getD 2 0 = 0x57) (hc : v.getD 3 0 = 0x27) (hs : v.getD 4 0 ≠ 0x02) :
    decode v = .unrecognized 0x27 := by
  rw [decode, if_neg (by push_neg; exact ⟨by omega, h0, h1, h2⟩),
    if_neg (fun hh => hs hh.2), if_neg (by rw [hc]; decide), if_neg (by rw [hc]; decide), hc]

/-- Witness for C10: a device-info frame with request sub-code 0x01. -/
theorem decode_deviceInfo_wrong_subcode_witness :
    decode [0x51, 0x58, 0x57, 0x27, 0x01, 0x00] = .unrecognized 0x27 :=
  decode_deviceInfo_wrong_subcode [0x51, 0x58, 0x57, 0x27, 0x01, 0x00]
    (by decide) (by decide) (by decide) (by decide) (by decide) (by decide)

/-- Claim C4: encodeGain is total; on the advisory range [-12, 13.5] dB
the clamp is inactive (the value is round(dB*10) + 120) and the result
lies in [0, 255]; the endpoints map to 0, 120 and 255. -/
theorem encodeGain_range_and_endpoints :
    (∀ db : ℚ, -12 ≤ db → db ≤ 27/2 →
      encodeGain db = jsRound (db * 10) + 120 ∧ 0 ≤ encodeGain db ∧ encodeGain db ≤ 255) ∧
      encodeGain (-12) = 0 ∧ encodeGain 0 = 120 ∧ encodeGain (27/2) = 255 := by
  refine ⟨fun db hlo hhi => ?_, ?_, ?_, ?_⟩
  · have hlow : (-120 : ℤ) ≤ jsRound (db * 10) := by
      have h0 : ((-239 : ℚ)/2) ≤ db * 10 + 1/2 := by linarith
      have hf := Int.floor_mono h0
      rw [show ⌊((-239 : ℚ)/2)⌋ = -120 by norm_num] at hf
      exact hf
    have hhigh : jsRound (db * 10) ≤ 135 := by
      have h0 : db * 10 + 1/2 ≤ ((271 : ℚ)/2) := by linarith
      have hf := Int.floor_mono h0
      rw [show ⌊((271 : ℚ)/2)⌋ = 135 by norm_num] at hf
      exact hf
    have heq : encodeGain db = jsRound (db * 10) + 120 := by
      rw [encodeGain, min_eq_right (by omega), max_eq_right (by omega)]
    exact ⟨heq, by omega, by omega⟩
  all_goals norm_num [encodeGain, jsRound]

/-- Witness for C4 at 0 dB. -/
theorem encodeGain_range_witness :
    encodeGain 0 = jsRound (0 * 10) + 120 ∧ 0 ≤ encodeGain 0 ∧ encodeGain 0 ≤ 255 :=
  encodeGain_range_and_endpoints.1 0 (by norm_num) (by norm_num)

/-- Claim C9: on every representable value (a multiple of 0.1 dB with
byte in range, i.e. k/10 for -120 ≤ k ≤ 135) the decode-encode round
trip is the identity; in general, whenever the clamp is inactive, the
round trip returns the input rounded to the nearest 0.1 dB. -/
theorem gain_roundtrip :
    (∀ k : ℤ, -120 ≤ k → k ≤ 135 →
      decodeGain (encodeGain ((k : ℚ) / 10)) = (k : ℚ) / 10) ∧
    (∀ db : ℚ, 0 ≤ jsRound (db * 10) + 120 → jsRound (db * 10) + 120 ≤ 255 →
      decodeGain (encodeGain db) = (jsRound (db * 10) : ℚ) / 10) := by
  have hgen : ∀ db : ℚ, 0 ≤ jsRound (db * 10) + 120 → jsRound (db * 10) + 120 ≤ 255 →
      decodeGain (encodeGain db) = (jsRound (db * 10) : ℚ) / 10 := by
    intro db h1 h2
    rw [encodeGain, min_eq_right (by omega), max_eq_right h1, decodeGain]
    push_cast
    ring
  refine ⟨fun k hk1 hk2 => ?_, hgen⟩
  have hr : jsRound ((k : ℚ) / 10 * 10) = k := by
    rw [jsRound, show ((k : ℚ) / 10 * 10) = (k : ℚ) by field_simp, Int.floor_int_add]
    norm_num
  rw [hgen ((k : ℚ) / 10) (by omega) (by omega), hr]

/-- Witness for C9 at k = -37 (-3.7 dB). -/
theorem gain_roundtrip_witness :
    decodeGain (encodeGain (((-37 : ℤ) : ℚ) / 10)) = ((-37 : ℤ) : ℚ) / 10 :=
  gain_roundtrip.1 (-37) (by norm_num) (by norm_num)

/-- Helper: decode on a frame presented as an explicit QXW-headed cons
cell, exposing the command and sub-code dispatch. -/
theorem decode_cons (c t : Nat) (rest : List Nat) :
    decode (0x51 :: 0x58 :: 0x57 :: c :: t :: rest) =
      if c = CMD_DEVICE_INFO ∧ t = 0x02 then
        (match parseDeviceInfo rest with
          | some di => Event.deviceInfo di
          | none => Event.deviceInfoTooShort)
      else if c = CMD_SELECT_EQ then .presetConfirmed
      else if c = CMD_CUSTOM_EQ then .customEqConfirmed
      else .unrecognized c := by
  rw [decode, if_neg (by simp)]
  rfl

/-- Counterexample to claim C6: decode maps the encodings of two
different (cmd, type, payload) triples to the same event, so the
original triple cannot be reconstructed from the decode result. -/
theorem decode_roundtrip_counterexample :
    decode (buildPacket 0x99 0x01 []) = decode (buildPacket 0x99 0x03 [0x05]) ∧
      (0x99, 0x01, ([] : List Nat)) ≠ (0x99, 0x03, ([0x05] : List Nat)) := by
  decide

/-- Claim C6, amended: decoding an encoded frame always reconstructs the
command byte (acknowledgement and Unrecognized events carry no type or
payload, so only the command byte survives the round trip). -/
theorem decode_buildPacket_cmd (cmd ty : Nat) (payload : List Nat)
    (hc : cmd < 256) (ht : ty < 256) (hlen : payload.length ≤ 255) :
    eventCmd (decode (buildPacket cmd ty payload)) = some cmd := by
  have hb : buildPacket cmd ty payload
      = 0x51 :: 0x58 :: 0x57 :: cmd :: ty ::
          (payload.length % 256 :: payload.map (· % 256)) := by
    unfold buildPacket
    rw [Nat.mod_eq_of_lt hc, Nat.mod_eq_of_lt ht]
    rfl
  rw [hb, decode_cons]
  by_cases h1 : cmd = CMD_DEVICE_INFO ∧ ty = 0x02
  · rw [if_pos h1]
    obtain ⟨hcmd, -⟩ := h1
    cases parseDeviceInfo (payload.length % 256 :: payload.map (· % 256)) <;>
      simp [eventCmd, hcmd]
  · rw [if_neg h1]
    by_cases h2 : cmd = CMD_SELECT_EQ
    · rw [if_pos h2]
      simp [eventCmd, h2]
    · rw [if_neg h2]
      by_cases h3 : cmd = CMD_CUSTOM_EQ
      · rw [if_pos h3]
        simp [eventCmd, h3]
      · rw [if_neg h3]
        simp [eventCmd]

/-- Witness for the amended C6: the unknown command 0x99 is carried
through the round trip. -/
theorem decode_buildPacket_cmd_witness :
    eventCmd (decode (buildPacket 0x99 0x01 [0x01, 0x02])) = some 0x99 :=
  decode_buildPacket_cmd 0x99 0x01 [0x01, 0x02] (by decide) (by decide) (by decide)

/-- Claim C5: the custom-EQ payload is a pure function of the band state
with length always 24; byte i*3 is the band index i for i < 8; and after
setBand 0 6.0 0.7 on the initial state it starts 00 B4 07. -/
theorem toCustomEqPayload_spec :
    (∀ s : EqState, (toCustomEqPayload s).length = 24) ∧
    (∀ s : EqState, ∀ i : Nat, i < 8 → (toCustomEqPayload s).getD (i * 3) 0 = i) ∧
    (toCustomEqPayload (setBand initEqState 0 6 (7/10))).take 3 = [0x00, 0xB4, 0x07] := by
  refine ⟨fun s => rfl, fun s i hi => ?_, ?_⟩
  · interval_cases i <;> rfl
  · have h1 : encodeGain (max GAIN_MIN_DB (min GAIN_MAX_DB 6)) = 180 := by
      norm_num [GAIN_MIN_DB, GAIN_MAX_DB, encodeGain, jsRound, min_def, max_def]
    have h2 : encodeQ (7/10) = 7 := by
      norm_num [encodeQ, jsRound, min_def, max_def]
    rw [setBand, h1, h2]
    decide

/-- Witness for C5: the index byte of band 2 in the initial state. -/
theorem toCustomEqPayload_witness :
    (toCustomEqPayload initEqState).getD (2 * 3) 0 = 2 ∧
      (toCustomEqPayload initEqState).length = 24 :=
  ⟨toCustomEqPayload_spec.2.1 initEqState 2 (by decide), toCustomEqPayload_spec.1 initEqState⟩

/-- Helper: the backwards scan yields [] when no index in [5, n] is
accepted. -/
theorem scanNameFrom_eq_nil (p : List Nat) (n : Nat)
    (h : ∀ j, 5 ≤ j → j ≤ n → validNameAt p j = false) :
    scanNameFrom p n = [] := by
  induction n with
  | zero => rfl
  | succ n ih =>
    by_cases h5 : n + 1 < 5
    · rw [scanNameFrom, if_pos h5]
    · have hv : validNameAt p (n + 1) = false := h (n + 1) (by omega) (le_refl _)
      rw [scanNameFrom, if_neg h5, if_neg (by simp [hv])]
      exact ih fun j hj1 hj2 => h j hj1 (by omega)

/-- Helper: the backwards scan started at n returns the candidate at the
greatest accepted index i in [5, n]. -/
theorem scanNameFrom_eq_of_valid (p : List Nat) (i n : Nat)
    (h5 : 5 ≤ i) (hin : i ≤ n) (hv : validNameAt p i = true)
    (hmax : ∀ j, i < j → j ≤ n → validNameAt p j = false) :
    scanNameFrom p n = nameAt p i := by
  induction n with
  | zero => omega
  | succ n ih =>
    rcases Nat.lt_or_ge i (n + 1) with hlt | hge
    · have hvtop : validNameAt p (n + 1) = false := hmax (n + 1) hlt (le_refl _)
      rw [scanNameFrom, if_neg (by omega), if_neg (by simp [hvtop])]
      exact ih (by omega) fun j hj1 hj2 => hmax j hj1 (by omega)
    · have heq : i = n + 1 := by omega
      subst heq
      rw [scanNameFrom, if_neg (by omega), if_pos hv]

/-- Claim C3: on a payload of at least 5 bytes the name extractor returns
the candidate at the rightmost index i in [5, len) whose length byte
nameLen satisfies 0 < nameLen < 32, fits in the payload, and prefixes
nameLen printable-ASCII bytes; if no index qualifies it returns the empty
name.  On payload 01 03 64 64 00 05 48 65 6c 6c 6f the parse is
batteries 100/100 and name "Hello". -/
theorem extractName_spec :
    (∀ p : List Nat, 5 ≤ p.length →
      ((∀ j, 5 ≤ j → j < p.length → validNameAt p j = false) → extractName p = []) ∧
      (∀ i, 5 ≤ i → i < p.length → validNameAt p i = true →
        (∀ j, i < j → j < p.length → validNameAt p j = false) →
        extractName p = nameAt p i)) ∧
    parseDeviceInfo [0x01, 0x03, 0x64, 0x64, 0x00, 0x05, 0x48, 0x65, 0x6c, 0x6c, 0x6f]
      = some ⟨100, 100, [0x48, 0x65, 0x6c, 0x6c, 0x6f]⟩ := by
  refine ⟨fun p hp => ⟨fun hnone => ?_, fun i h5 hi hv hmax => ?_⟩, by decide⟩
  · exact scanNameFrom_eq_nil p (p.length - 1) fun j hj1 hj2 => hnone j hj1 (by omega)
  · exact scanNameFrom_eq_of_valid p i (p.length - 1) h5 (by omega) hv
      fun j hj1 hj2 => hmax j hj1 (by omega)

/-- Witness for C3: on the demo payload the accepted index is 5 and the
extracted name is the 5 bytes of "Hello". -/
theorem extractName_spec_witness :
    extractName [0x01, 0x03, 0x64, 0x64, 0x00, 0x05, 0x48, 0x65, 0x6c, 0x6c, 0x6f]
      = nameAt [0x01, 0x03, 0x64, 0x64, 0x00, 0x05, 0x48, 0x65, 0x6c, 0x6c, 0x6f] 5 :=
  (extractName_spec.1 [0x01, 0x03, 0x64, 0x64, 0x00, 0x05, 0x48, 0x65, 0x6c, 0x6c, 0x6f]
      (by decide)).2 5 (by decide) (by decide) (by decide)
    (fun j hj1 hj2 => by
      have hj3 : j < 11 := by simpa using hj2
      interval_cases j <;> decide)

end Fairbuds
